import Mathlib

/-!
# Verification of the vessel-report layout and limit-matching engine

Shallow embedding of the parameter-limit resolution, alert computation,
table pagination and page-layout state machine found in
`dashbored/report_utils.py` and `dashbored/generate_vessel_report.py`.

Python floats are modelled as rationals (`ℚ`); a Python value that is
neither `None` nor convertible by `float(...)` is modelled by a dedicated
constructor.  Machine state mutated by the drawing methods is modelled as
an explicit record threaded through each operation.
-/

/-- A Python value as it occurs in `value_numeric` / limit fields:
either a number (`int`/`float`), a string that `float(...)` parses to a
number, or a string on which `float(...)` raises. -/
inductive PVal where
  | num (q : ℚ)
  | strNum (q : ℚ) (s : String)
  | strBad (s : String)
deriving DecidableEq, Repr

/-- Result of Python `float(x)` on a non-`None` value:
`some q` when conversion succeeds, `none` when it raises. -/
def PVal.toFloat : PVal → Option ℚ
  | .num q => some q
  | .strNum q _ => some q
  | .strBad _ => none

/-- Python `str(x)`.  The decimal rendering of a number is irrelevant to
every claim; it is abstracted as `toString` of the rational. -/
def PVal.pyStr : PVal → String
  | .num q => toString q
  | .strNum _ s => s
  | .strBad s => s

/-- Python `isinstance(x, (int, float))`. -/
def PVal.isNumber : PVal → Bool
  | .num _ => true
  | _ => false

/-- Python `s.upper()` (per-character uppercasing). -/
def pyUpper (s : String) : String := ⟨s.data.map Char.toUpper⟩

/-- Python substring test `sub in s`. -/
def strContains (s sub : String) : Bool :=
  (List.range (s.data.length + 1)).any (fun i => sub.data.isPrefixOf (s.data.drop i))

/-- Python `s.startswith(p)`. -/
def strStarts (s p : String) : Bool := p.data.isPrefixOf s.data

/-- Python `s.endswith(p)`. -/
def strEnds (s p : String) : Bool := p.data.isSuffixOf s.data

/-- Python `s.strip()`: drop whitespace from both ends. -/
def pyStrip (s : String) : String :=
  ⟨((s.data.dropWhile Char.isWhitespace).reverse.dropWhile Char.isWhitespace).reverse⟩

/-- Python `s[:n]` (slicing counts characters, as `List.take` does). -/
def pyTake (s : String) (n : ℕ) : String := ⟨s.data.take n⟩

/-- `report_utils.is_valid_limit` (report_utils.py:25-51): limits are
valid for chart display only when both are non-`None`, both convert with
`float`, neither is negative, and `high ≥ low`. -/
def is_valid_limit (ideal_low ideal_high : Option PVal) : Bool :=
  match ideal_low, ideal_high with
  | some lo, some hi =>
    match lo.toFloat, hi.toFloat with
    | some low, some high =>
      if low < 0 ∨ high < 0 then false
      else if high < low then false
      else true
    | _, _ => false
  | _, _ => false

/-- Guard at report_utils.py:418/567: limit lines are drawn on a chart
exactly when `is_valid_limit` holds for the resolved pair. -/
def chart_draws_limit_lines (ideal_low ideal_high : Option PVal) : Bool :=
  is_valid_limit ideal_low ideal_high

/-- `report_utils.normalize_param_name_for_limits` (report_utils.py:79-156).
Ordered cascade of substring rules mapping a raw parameter name (plus an
optional equipment-type hint) to a canonical limit key. -/
def normalize_param_name_for_limits (param_name : String)
    (equipment_type : Option String) : String :=
  if param_name = "" then ""
  else
    let name := pyUpper param_name
    if strContains name "SULPHATE" || strContains name "SULFATE" then "SULPHATE (SO₄)"
    else if strContains name "PHOSPHAT" then "PHOSPHATE"
    else if strContains name "ALKALINITY" then
      let isBoiler : Bool :=
        match equipment_type with
        | none => false
        | some et =>
          (et != "") && (strContains (pyUpper et) "BOILER" || strContains (pyUpper et) "EGE")
      if isBoiler && (strContains name " M" || strEnds name "M" ||
            strContains name "M-ALK" || strContains name "M (") then "ALKALINITY M"
      else if isBoiler && (strContains name " P" || strEnds name "P" ||
            strContains name "P-ALK" || strContains name "P (") then "ALKALINITY P"
      else if strContains name " M " ∨ strContains name " M(" ∨
            strEnds name " M" ∨ name = "ALKALINITY M" then "TOTAL ALKALINITY (AS CACO₃)"
      else if strContains name " P " ∨ strContains name " P(" ∨
            strEnds name " P" then "ALKALINITY P"
      else "TOTAL ALKALINITY (AS CACO₃)"
    else if strContains name "CHLORIDE" then "CHLORIDE"
    else if strStarts name "PH" ∨ strContains name " PH" ∨
          strContains name "PH-" ∨ name = "PH" then "PH"
    else if strContains name "CONDUCTIV" then "CONDUCTIVITY"
    else if strContains name "DEHA" then "DEHA"
    else if strContains name "HYDRAZINE" then "HYDRAZINE"
    else if strContains name "NITRITE" then "NITRITE"
    else if strContains name "HARDNESS" ∨ strContains name "HARDN" then "TOTAL HARDNESS"
    else if strContains name "COD" then "COD"
    else if strContains name "BOD" then "BOD"
    else if strContains name "TURBIDITY" then "TURBIDITY"
    else if strContains name "SUSPENDED" ∨ strContains name "TSS" then "TOTAL SUSPENDED SOLIDS"
    else if strContains name "CHLORINE" then
      if strContains name "FREE" then "FREE CHLORINE"
      else if strContains name "TOTAL" then "TOTAL CHLORINE"
      else if strContains name "COMBINED" then "COMBINED CHLORINE"
      else "TOTAL CHLORINE"
    else if strContains name "COPPER" then "COPPER (CU)"
    else if strContains name "IRON" ∧ ¬ strContains name "OIL" then "IRON (FE)"
    else if strContains name "NICKEL" then "NICKEL (NI)"
    else if strContains name "ZINC" then "ZINC (ZN)"
    else if strContains name "TDS" ∨ strContains name "DISSOLVED SOLID" then
      "TOTAL DISSOLVED SOLIDS (TDS)"
    else pyStrip name

/-- The limit catalog for one equipment type, as returned by the external
`get_all_limits_for_equipment` collaborator: an insertion-ordered map
from canonical key to `(lower_limit, upper_limit)`. -/
abbrev Catalog := List (String × (Option PVal × Option PVal))

/-- The fuzzy-containment loop of `get_limits_for_pdf`
(report_utils.py:186-193), iterating the catalog in order. -/
def fuzzyScan (normalized : String) : Catalog → Option PVal × Option PVal
  | [] => (none, none)
  | (key, v) :: rest =>
    if 3 < key.length ∧ strContains normalized key = true then v
    else if 3 < normalized.length ∧ strContains key normalized = true then v
    else fuzzyScan normalized rest

/-- `report_utils.get_limits_for_pdf` (report_utils.py:159-195), with the
external catalog passed explicitly.  Exact canonical lookup first, then
the length-guarded fuzzy containment scan. -/
def get_limits_for_pdf (limits : Catalog) (equipment_type parameter_name : String) :
    Option PVal × Option PVal :=
  if limits = [] then (none, none)
  else
    let normalized := normalize_param_name_for_limits parameter_name (some equipment_type)
    match List.lookup normalized limits with
    | some v => v
    | none => fuzzyScan normalized limits

/-- `generate_vessel_report.sanitize_unit_for_pdf` replacement table
(generate_vessel_report.py:97-104), in insertion order. -/
def unicodeReplacements : List (Char × Char) :=
  [('⁻', '-'), ('⁺', '+'),
   ('⁰', '0'), ('¹', '1'), ('²', '2'), ('³', '3'), ('⁴', '4'),
   ('⁵', '5'), ('⁶', '6'), ('⁷', '7'), ('⁸', '8'), ('⁹', '9'),
   ('₀', '0'), ('₁', '1'), ('₂', '2'), ('₃', '3'), ('₄', '4'),
   ('₅', '5'), ('₆', '6'), ('₇', '7'), ('₈', '8'), ('₉', '9')]

/-- `generate_vessel_report.sanitize_unit_for_pdf` (generate_vessel_report.py:93-108).
Every replacement pattern is a single character, so Python `str.replace`
acts as per-character substitution. -/
def sanitize_unit_for_pdf (s : String) : String :=
  if s = "" then s
  else ⟨unicodeReplacements.foldl
          (fun acc p => acc.map (fun c => if c = p.1 then p.2 else c)) s.data⟩

/-- One already-fetched measurement record, as consumed by
`add_data_table_with_limits` (dict fields it reads, with the `.get`
defaults resolved by the caller supplying `Option` fields). -/
structure MRecord where
  measurement_date : String
  unit_id : String
  parameter_name : String
  value_numeric : Option PVal
  unit : Option String
deriving DecidableEq, Repr

/-- The per-row alert test of `add_data_table_with_limits`
(generate_vessel_report.py:416-426): inside a `try`, evaluate
`float(value) < float(low) or float(value) > float(high)` with Python
short-circuiting; any exception is swallowed, leaving the row "OK". -/
def rowStatusAlert (value : PVal) (low high : Option PVal) : Bool :=
  match low, high with
  | some lo, some hi =>
    match value.toFloat, lo.toFloat with
    | some v, some lf =>
      if v < lf then true
      else
        match hi.toFloat with
        | some hf => decide (v > hf)
        | none => false
    | _, _ => false
  | _, _ => false

/-- Loop body of the row-building loop of `add_data_table_with_limits`
(generate_vessel_report.py:402-437) for one record: `None` values are
skipped (`continue`); otherwise the seven display cells and the alert
flag are produced. -/
def rowOfRecord (cat : Catalog) (equipment_type : String) (item : MRecord) :
    Option (List String × Bool) :=
  match item.value_numeric with
  | none => none
  | some value =>
    let date := pyTake item.measurement_date 10
    let unit := item.unit_id
    let param_name := item.parameter_name
    let lims := get_limits_for_pdf cat equipment_type param_name
    let limits_str :=
      match lims.1, lims.2 with
      | some lo, some hi => lo.pyStr ++ "-" ++ hi.pyStr
      | _, _ => "-"
    let is_alert := rowStatusAlert value lims.1 lims.2
    let status := if is_alert then "ALERT" else "OK"
    let short_param := if param_name.length > 20 then pyTake param_name 20 else param_name
    let value_str := value.pyStr ++ (if is_alert then "*" else "")
    let meas_unit :=
      sanitize_unit_for_pdf
        (match item.unit with
         | some u => if u = "" then "-" else u
         | none => "-")
    some ([date, unit, short_param, value_str, meas_unit, limits_str, status], is_alert)

/-- Alert-cell accumulation: the loop appends `(row_idx, 3)` and
`(row_idx, 6)` for each alert row, with `row_idx` counting kept rows from
1 (generate_vessel_report.py:400,423-424,437). -/
def deriveAlerts : ℕ → List (List String × Bool) → List (ℕ × ℕ)
  | _, [] => []
  | i, (_, a) :: rest => (if a then [(i, 3), (i, 6)] else []) ++ deriveAlerts (i + 1) rest

/-- The full row/alert derivation of `add_data_table_with_limits`
(generate_vessel_report.py:396-437): records sorted by date descending
(Python stable sort with `reverse=True`), `None`-valued records dropped,
each kept record yielding one row, alerts indexed by kept-row position. -/
def deriveRows (cat : Catalog) (equipment_type : String) (data : List MRecord) :
    List (List String) × List (ℕ × ℕ) :=
  let sorted := data.mergeSort (fun a b => b.measurement_date ≤ a.measurement_date)
  let processed := sorted.filterMap (rowOfRecord cat equipment_type)
  (processed.map Prod.fst, deriveAlerts 1 processed)

/-- Page-size constant of `add_data_table_with_limits`
(generate_vessel_report.py:443): the code sets 24 (its comment says 20). -/
def max_rows_per_page : ℕ := 24

/-- Number of iterations of the `while page_num * P < len(rows)` loop
(generate_vessel_report.py:446): the least `k` with `k * P ≥ N`, which
for `P > 0` is `⌈N / P⌉ = (N + P - 1) / P`. -/
def pageCount (N P : ℕ) : ℕ := (N + P - 1) / P

/-- The page slices produced by the pagination loop
(generate_vessel_report.py:446-449): iteration `k` renders
`rows[k*P : min((k+1)*P, N)]`. -/
def paginate (P : ℕ) (rows : List α) : List (List α) :=
  (List.range (pageCount rows.length P)).map (fun k => (rows.drop (k * P)).take P)

/-- The mutable layout state of `ReportPDFGenerator`
(generate_vessel_report.py:111-135): vertical cursor, 2×2 grid slot, the
current grid row's top, section-local page number, section name, and the
number of finalized pages (`showPage` calls).  `grid_row_y` is `None` in
Python until first set; it is only ever read after being set, so it is
modelled as an integer initialized to 0. -/
structure GenState where
  y_position : ℤ
  grid_position : ℕ
  grid_row_y : ℤ
  section_page : ℕ
  current_section : String
  pages : ℕ
deriving DecidableEq, Repr

/-- A drawing action's vertical extent on the current page (bottom and
top y, in points; for a text line both are the baseline). -/
structure DrawOp where
  y_bottom : ℤ
  y_top : ℤ
deriving DecidableEq, Repr

/-- `self.c.showPage()`: finalize the current page. -/
def showPage (s : GenState) : GenState := { s with pages := s.pages + 1 }

/-- `start_content_page` (generate_vessel_report.py:192-220): reset the
section bookkeeping and put the cursor at the fixed content top
`header_bar_bottom - 40 = (792 - 100) - 40 = 652`. -/
def start_content_page (s : GenState) (section_name : String)
    (is_continuation : Bool) : GenState :=
  let s :=
    if is_continuation then { s with section_page := s.section_page + 1 }
    else { s with current_section := section_name, section_page := 1 }
  { s with y_position := 652, grid_position := 0 }

/-- The page-break idiom `self.c.showPage();
self.start_content_page(self.current_section, is_continuation=True)`. -/
def breakPage (s : GenState) : GenState :=
  start_content_page (showPage s) s.current_section true

/-- `add_text` (generate_vessel_report.py:316-328): break if the cursor
is below 85, draw one text line at the cursor, advance by 16. -/
def add_text (s : GenState) : GenState × List DrawOp :=
  let s := if s.y_position < 85 then breakPage s else s
  ({ s with y_position := s.y_position - 16 }, [⟨s.y_position, s.y_position⟩])

/-- `add_subsection` (generate_vessel_report.py:304-314): break if the
cursor is below 180, draw the title, advance by 40 + 22. -/
def add_subsection (s : GenState) : GenState × List DrawOp :=
  let s := if s.y_position < 180 then breakPage s else s
  ({ s with y_position := s.y_position - 62 }, [⟨s.y_position, s.y_position⟩])

/-- `add_chart` (generate_vessel_report.py:222-266): 2×2 grid placement.
At slot 0 a page break is taken when one grid-chart height (245) does not
fit above 85, and the row top is recorded; the chart's y is one chart
height below the row top for slots 0-1, two heights plus the 15pt row
gap below it for slots 2-3; after the 4th chart the slot wraps to 0 and
the cursor moves 15 below the bottom row. -/
def add_chart (chart : Option Unit) (s : GenState) : GenState × List DrawOp :=
  match chart with
  | none => (s, [])
  | some _ =>
    let s1 :=
      if s.grid_position = 0 then
        let sb := if s.y_position - 245 < 85 then breakPage s else s
        { sb with grid_row_y := sb.y_position }
      else s
    let y_pos :=
      if s1.grid_position < 2 then s1.grid_row_y - 245
      else s1.grid_row_y - 245 * 2 - 15
    let gp := s1.grid_position + 1
    let s2 :=
      if 4 ≤ gp then { s1 with grid_position := 0, y_position := y_pos - 15 }
      else { s1 with grid_position := gp }
    (s2, [⟨y_pos, y_pos + 245⟩])

/-- `flush_grid` (generate_vessel_report.py:268-276): if any chart of a
row-set is pending, reset the slot and drop the cursor by
`rows_used * 260 + (rows_used - 1) * 15 + 15` below the recorded row top,
where `rows_used = (grid_position + 1) // 2` (note the 260 here versus
the 245 used by `add_chart`). -/
def flush_grid (s : GenState) : GenState :=
  if 0 < s.grid_position then
    let rows_used : ℤ := ((s.grid_position + 1) / 2 : ℕ)
    { s with
      y_position := s.grid_row_y - rows_used * 260 - (rows_used - 1) * 15 - 15,
      grid_position := 0 }
  else s

/-- `add_wide_chart` (generate_vessel_report.py:278-302): flush the grid,
break if 280pt does not fit above 85, draw full width, advance by 15. -/
def add_wide_chart (chart : Option Unit) (s : GenState) : GenState × List DrawOp :=
  match chart with
  | none => (s, [])
  | some _ =>
    let s := flush_grid s
    let s := if s.y_position - 280 < 85 then breakPage s else s
    let y_pos := s.y_position - 280
    ({ s with y_position := y_pos - 15 }, [⟨y_pos, y_pos + 280⟩])

/-- The per-page rendering loop of `add_data_table_with_limits`
(generate_vessel_report.py:446-502): every page after the first re-opens
a continuation page (re-drawing the subsection title when present), then
the page's table of `n` rows plus header is drawn with height
`(n + 1) * 18 + 10` at the cursor, and the cursor drops by that height
plus 15. -/
def tableLoop (title : Option String) :
    Bool → List (List (List String)) → GenState → GenState × List DrawOp
  | _, [], s => (s, [])
  | isFirst, page_rows :: rest, s =>
    let s :=
      if isFirst then s
      else
        let s := breakPage s
        match title with
        | some _ => (add_subsection s).1
        | none => s
    let table_height : ℤ := (page_rows.length + 1) * 18 + 10
    let d : DrawOp := ⟨s.y_position - table_height, s.y_position⟩
    let s := { s with y_position := s.y_position - (table_height + 15) }
    let res := tableLoop title false rest s
    (res.1, d :: res.2)

/-- `add_data_table_with_limits` (generate_vessel_report.py:374-510) as a
state transition: empty input returns immediately; otherwise the grid is
flushed, a fresh page is opened when `new_page`, the optional title is
drawn, the rows and alert cells are derived, and — only if any rows
survived — the paged tables and the alert legend are drawn. -/
def add_data_table_with_limits (cat : Catalog) (data : List MRecord)
    (equipment_type : String) (title : Option String) (new_page : Bool)
    (s : GenState) : GenState × List DrawOp :=
  if data = [] then (s, [])
  else
    let s := flush_grid s
    let s := if new_page then breakPage s else s
    let s :=
      match title with
      | some _ => (add_subsection s).1
      | none => s
    let rows := (deriveRows cat equipment_type data).1
    let alert_cells := (deriveRows cat equipment_type data).2
    if rows = [] then (s, [])
    else
      let res := tableLoop title true (paginate max_rows_per_page rows) s
      if alert_cells = [] then res
      else ({ res.1 with y_position := res.1.y_position - 15 },
            res.2 ++ [⟨res.1.y_position, res.1.y_position⟩])

/-- Iterate a drawing operation, discarding the draw records. -/
def applyN (f : GenState → GenState × List DrawOp) : ℕ → GenState → GenState
  | 0, s => s
  | n + 1, s => applyN f n (f s).1

/-! ## Helper lemmas -/

theorem isPrefixOf_length_le : ∀ (l1 l2 : List Char), l1.isPrefixOf l2 = true →
    l1.length ≤ l2.length
  | [], _, _ => Nat.zero_le _
  | _ :: _, [], h => by simp [List.isPrefixOf] at h
  | a :: as, b :: bs, h => by
    simp only [List.isPrefixOf, Bool.and_eq_true] at h
    simpa using Nat.succ_le_succ (isPrefixOf_length_le as bs h.2)

theorem strContains_length_le (s sub : String) (h : strContains s sub = true) :
    sub.length ≤ s.length := by
  unfold strContains at h
  rw [List.any_eq_true] at h
  obtain ⟨i, _, hp⟩ := h
  have h1 := isPrefixOf_length_le _ _ hp
  have h2 : (s.data.drop i).length ≤ s.data.length := by
    simp [List.length_drop]
  have hs : s.length = s.data.length := rfl
  have hsub : sub.length = sub.data.length := rfl
  omega

theorem fuzzyScan_short (normalized : String)
    (h : normalized.length ≤ 3) :
    ∀ limits : Catalog, fuzzyScan normalized limits = (none, none) := by
  intro limits
  induction limits with
  | nil => rfl
  | cons kv rest ih =>
    obtain ⟨key, v⟩ := kv
    simp only [fuzzyScan]
    rw [if_neg, if_neg]
    · exact ih
    · rintro ⟨h3, _⟩; omega
    · rintro ⟨h3, hc⟩
      have := strContains_length_le _ _ hc
      omega

theorem fuzzyScan_spec (normalized : String) :
    ∀ (limits : Catalog) (res : Option PVal × Option PVal),
      fuzzyScan normalized limits = res → res ≠ (none, none) →
      ∃ key, (key, res) ∈ limits ∧
        ((3 < key.length ∧ strContains normalized key = true) ∨
         (3 < normalized.length ∧ strContains key normalized = true)) := by
  intro limits
  induction limits with
  | nil =>
    intro res hres hne
    exact absurd hres.symm hne
  | cons kv rest ih =>
    obtain ⟨key, v⟩ := kv
    intro res hres hne
    simp only [fuzzyScan] at hres
    split_ifs at hres with h1 h2
    · exact ⟨key, by simp [← hres], Or.inl h1⟩
    · exact ⟨key, by simp [← hres], Or.inr h2⟩
    · obtain ⟨k, hk, hg⟩ := ih res hres hne
      exact ⟨k, List.mem_cons_of_mem _ hk, hg⟩

/-! ## Claim C1 -/

/-- A catalog whose "PH" entry carries the negative sentinel pair. -/
def sentinelCat : Catalog := [("PH", (some (.num (-1)), some (.num (-1))))]

/-- A pH measurement of 5.0. -/
def sentinelRec : MRecord :=
  ⟨"2025-01-01", "Aux1", "pH-Universal (liq)", some (.num 5), none⟩

/-- C1 (counterexample): with the sentinel pair (-1, -1) resolved for
"PH", `add_data_table_with_limits`'s row derivation *does* record alert
cells for the value 5.0 — a negative resolved bound does not suppress
alerting in the table path, even though `is_valid_limit` rejects the
pair. -/
theorem c1_counterexample :
    get_limits_for_pdf sentinelCat "POTABLE WATER" "pH-Universal (liq)"
        = (some (.num (-1)), some (.num (-1)))
    ∧ (-1 : ℚ) < 0
    ∧ (deriveRows sentinelCat "POTABLE WATER" [sentinelRec]).2 = [(1, 3), (1, 6)]
    ∧ is_valid_limit (some (.num (-1))) (some (.num (-1))) = false := by
  refine ⟨by decide, by norm_num, ?_, by decide⟩
  simp only [deriveRows, List.mergeSort_singleton]
  decide

/-- C1 (amended): `is_valid_limit` accepts a numeric pair exactly when
both bounds are non-negative and lower ≤ upper, and chart limit lines are
drawn exactly under `is_valid_limit`; but the alert test of
`add_data_table_with_limits` fires on any numeric pair whenever the value
is strictly outside [lower, upper], regardless of sign — it does not
consult `is_valid_limit`, so negative sentinel bounds can produce alerts
in the table. -/
theorem c1_amended :
    (∀ lo hi : ℚ,
        is_valid_limit (some (.num lo)) (some (.num hi)) = true ↔
          (0 ≤ lo ∧ 0 ≤ hi ∧ lo ≤ hi))
    ∧ (∀ lo hi, chart_draws_limit_lines lo hi = is_valid_limit lo hi)
    ∧ (∀ v lo hi : ℚ,
        rowStatusAlert (.num v) (some (.num lo)) (some (.num hi)) = true ↔
          (v < lo ∨ hi < v)) := by
  refine ⟨?_, fun _ _ => rfl, ?_⟩
  · intro lo hi
    simp only [is_valid_limit, PVal.toFloat]
    split_ifs with h1 h2
    · simp only [Bool.false_eq_true, false_iff]
      rintro ⟨ha, hb, _⟩
      rcases h1 with h | h <;> linarith
    · simp only [Bool.false_eq_true, false_iff]
      rintro ⟨_, _, hc⟩
      linarith
    · push_neg at h1
      simp only [true_iff]
      exact ⟨h1.1, h1.2, not_lt.mp h2⟩
  · intro v lo hi
    simp only [rowStatusAlert, PVal.toFloat]
    split_ifs with h
    · simp only [true_iff]
      exact Or.inl h
    · simp [gt_iff_lt, h]

/-! ## Claim C2 -/

/-- C2: `get_limits_for_pdf` tries the exact normalized-key lookup first;
when the normalized name has length ≤ 3 and there is no exact match, the
result is (None, None); any value produced by the fuzzy scan comes from a
catalog entry satisfying the containment-with-length-guard, in which the
contained string always has length > 3; in particular "pH-Universal
(liq)" (normalized "PH") never selects a "PHOSPHATE" entry. -/
theorem c2_exact_then_guarded_fuzzy (limits : Catalog) (eqt param : String) :
    (∀ v, List.lookup (normalize_param_name_for_limits param (some eqt)) limits = some v →
        get_limits_for_pdf limits eqt param = v)
    ∧ ((normalize_param_name_for_limits param (some eqt)).length ≤ 3 →
        List.lookup (normalize_param_name_for_limits param (some eqt)) limits = none →
        get_limits_for_pdf limits eqt param = (none, none))
    ∧ (∀ res, List.lookup (normalize_param_name_for_limits param (some eqt)) limits = none →
        get_limits_for_pdf limits eqt param = res → res ≠ (none, none) →
        ∃ key, (key, res) ∈ limits ∧
          ((3 < key.length ∧
              strContains (normalize_param_name_for_limits param (some eqt)) key = true) ∨
           (3 < (normalize_param_name_for_limits param (some eqt)).length ∧
              strContains key (normalize_param_name_for_limits param (some eqt)) = true)))
    ∧ (∀ v, get_limits_for_pdf [("PHOSPHATE", v)] eqt "pH-Universal (liq)" = (none, none)) := by
  refine ⟨?_, ?_, ?_, ?_⟩
  · intro v hv
    rcases eq_or_ne limits [] with hL | hL
    · rw [hL, List.lookup_nil] at hv
      exact absurd hv (by simp)
    · simp [get_limits_for_pdf, hL, hv]
  · intro h3 hn
    rcases eq_or_ne limits [] with hL | hL
    · simp [get_limits_for_pdf, hL]
    · simp [get_limits_for_pdf, hL, hn, fuzzyScan_short _ h3]
  · intro res hn hres hne
    rcases eq_or_ne limits [] with hL | hL
    · rw [hL] at hres
      simp [get_limits_for_pdf] at hres
      exact absurd hres.symm hne
    · simp only [get_limits_for_pdf, hL, if_neg hL, hn] at hres
      exact fuzzyScan_spec _ _ _ hres hne
  · intro v
    have hnorm : normalize_param_name_for_limits "pH-Universal (liq)" (some eqt) = "PH" := rfl
    have h1 : ¬(3 < "PHOSPHATE".length ∧ strContains "PH" "PHOSPHATE" = true) := by decide
    have h2 : ¬(3 < "PH".length ∧ strContains "PHOSPHATE" "PH" = true) := by decide
    simp only [get_limits_for_pdf, hnorm, List.lookup, fuzzyScan]
    simp [h1, h2]

/-- Witness for C2: in a catalog containing only "PHOSPHATE", the short
normalized name "PH" finds nothing. -/
theorem c2_witness :
    get_limits_for_pdf [("PHOSPHATE", (some (.num 1), some (.num 5)))]
      "POTABLE WATER" "pH-Universal (liq)" = (none, none) :=
  (c2_exact_then_guarded_fuzzy [("PHOSPHATE", (some (.num 1), some (.num 5)))]
    "POTABLE WATER" "pH-Universal (liq)").2.1 (by decide) (by decide)

/-! ## Pagination lemmas -/

theorem paginate_length (P : ℕ) (rows : List α) :
    (paginate P rows).length = pageCount rows.length P := by
  simp [paginate]

theorem paginate_getD (P : ℕ) (rows : List α) (k : ℕ)
    (h : k < pageCount rows.length P) :
    (paginate P rows).getD k [] = (rows.drop (k * P)).take P := by
  simp [paginate, List.getD_eq_getElem?_getD, List.getElem?_range, h]

theorem paginate24_succ (rows : List α) (h : rows ≠ []) :
    paginate 24 rows = rows.take 24 :: paginate 24 (rows.drop 24) := by
  have hN : 0 < rows.length := List.length_pos.mpr h
  have hc : pageCount rows.length 24 = pageCount (rows.drop 24).length 24 + 1 := by
    simp only [List.length_drop]
    unfold pageCount
    omega
  unfold paginate
  rw [hc, List.range_succ_eq_map, List.map_cons, List.map_map]
  refine congrArg₂ List.cons (by simp) ?_
  apply List.map_congr_left
  intro k hk
  simp only [Function.comp_apply, List.drop_drop]
  have he : (k + 1) * 24 = 24 + k * 24 := by ring
  rw [he]

theorem paginate24_flatten : ∀ (n : ℕ) (rows : List α), rows.length ≤ n →
    (paginate 24 rows).flatten = rows := by
  intro n
  induction n with
  | zero =>
    intro rows h
    have : rows = [] := List.eq_nil_of_length_eq_zero (by omega)
    subst this
    simp [paginate, pageCount]
  | succ n ih =>
    intro rows h
    rcases eq_or_ne rows [] with rfl | hne
    · simp [paginate, pageCount]
    · have hN : 0 < rows.length := List.length_pos.mpr hne
      rw [paginate24_succ _ hne, List.flatten_cons,
        ih (rows.drop 24) (by simp [List.length_drop]; omega),
        List.take_append_drop]

/-! ## Claim C3 -/

/-- `n` placeholder table rows. -/
def dummyRows (n : ℕ) : List (List String) := List.replicate n []

/-- C3 (counterexample): the configured page size is 24, not 20, so 45
rows paginate into 2 pages of sizes [24, 21] — not 3 pages of
[20, 20, 5] as the claim's worked instance asserts. -/
theorem c3_counterexample :
    max_rows_per_page = 24
    ∧ (paginate max_rows_per_page (dummyRows 45)).map List.length = [24, 21]
    ∧ (paginate max_rows_per_page (dummyRows 45)).length ≠ 3
    ∧ (paginate max_rows_per_page (dummyRows 45)).map List.length ≠ [20, 20, 5] := by
  exact ⟨rfl, by decide, by decide, by decide⟩

/-- C3 (amended): with the configured page size `max_rows_per_page = 24`,
the pagination loop produces exactly `⌈N / 24⌉` chunks, chunk `k` is the
contiguous slice `rows[k*24 : min((k+1)*24, N)]`, and concatenating the
chunks reproduces the rows; 45 rows give 2 pages of sizes [24, 21]. -/
theorem c3_pagination (rows : List (List String)) (_h : rows ≠ []) :
    (paginate max_rows_per_page rows).length
        = (rows.length + max_rows_per_page - 1) / max_rows_per_page
    ∧ (∀ k, k < (paginate max_rows_per_page rows).length →
        (paginate max_rows_per_page rows).getD k []
          = (rows.drop (k * max_rows_per_page)).take max_rows_per_page)
    ∧ (paginate max_rows_per_page rows).flatten = rows
    ∧ (paginate max_rows_per_page (dummyRows 45)).map List.length = [24, 21] := by
  refine ⟨paginate_length _ _, ?_, paginate24_flatten rows.length rows le_rfl, by decide⟩
  intro k hk
  rw [paginate_length] at hk
  exact paginate_getD _ _ _ hk

/-- Witness for C3 at 45 concrete rows. -/
theorem c3_witness :
    (paginate max_rows_per_page (dummyRows 45)).flatten = dummyRows 45 :=
  (c3_pagination (dummyRows 45) (by decide)).2.2.1

/-! ## Claim C4 -/

theorem deriveAlerts_mem : ∀ (l : List (List String × Bool)) (i r c : ℕ),
    (r, c) ∈ deriveAlerts i l → i ≤ r ∧ r < i + l.length ∧ (c = 3 ∨ c = 6) := by
  intro l
  induction l with
  | nil =>
    intro i r c h
    simp [deriveAlerts] at h
  | cons p rest ih =>
    intro i r c h
    obtain ⟨cells, a⟩ := p
    simp only [deriveAlerts, List.mem_append] at h
    rcases h with h | h
    · rcases a with _ | _
      · simp at h
      · simp at h
        rcases h with ⟨rfl, rfl⟩ | ⟨rfl, rfl⟩
        · exact ⟨le_rfl, by simp, Or.inl rfl⟩
        · exact ⟨le_rfl, by simp, Or.inr rfl⟩
    · obtain ⟨h1, h2, h3⟩ := ih (i + 1) r c h
      exact ⟨by omega, by simp at h2 ⊢; omega, h3⟩

theorem deriveRows_alert_bound (cat : Catalog) (eqt : String) (data : List MRecord)
    (r c : ℕ) (h : (r, c) ∈ (deriveRows cat eqt data).2) :
    1 ≤ r ∧ r ≤ (deriveRows cat eqt data).1.length ∧ (c = 3 ∨ c = 6) := by
  simp only [deriveRows] at h ⊢
  obtain ⟨h1, h2, h3⟩ := deriveAlerts_mem _ 1 r c h
  refine ⟨h1, ?_, h3⟩
  simp only [List.length_map]
  omega

theorem unique_page (N r : ℕ) (h1 : 1 ≤ r) (h2 : r ≤ N) :
    ∃! k : ℕ, k < pageCount N 24 ∧ 1 ≤ r - k * 24 ∧
      r - k * 24 ≤ min 24 (N - k * 24) := by
  refine ⟨(r - 1) / 24, ⟨?_, ?_, ?_⟩, ?_⟩
  · unfold pageCount; omega
  · omega
  · omega
  · intro y hy
    obtain ⟨hy1, hy2, hy3⟩ := hy
    unfold pageCount at hy1
    omega

/-- C4: an alert cell recorded at global 1-based row index `r` is
highlighted on exactly one page: the unique page `k` whose remapped local
index `r - k * max_rows_per_page` lies in `[1, page_row_count]`; on every
other page the remapped coordinate falls outside that interval and is
dropped. -/
theorem c4_alert_remap (cat : Catalog) (eqt : String) (data : List MRecord)
    (r c : ℕ) (h : (r, c) ∈ (deriveRows cat eqt data).2) :
    ∃! k : ℕ,
      k < (paginate max_rows_per_page (deriveRows cat eqt data).1).length ∧
      1 ≤ r - k * max_rows_per_page ∧
      r - k * max_rows_per_page ≤
        ((paginate max_rows_per_page (deriveRows cat eqt data).1).getD k []).length := by
  obtain ⟨h1, h2, _⟩ := deriveRows_alert_bound cat eqt data r c h
  have base := unique_page (deriveRows cat eqt data).1.length r h1 h2
  obtain ⟨k0, ⟨hk1, hk2, hk3⟩, huniq⟩ := base
  have hlen : ∀ k, k < pageCount (deriveRows cat eqt data).1.length 24 →
      ((paginate 24 (deriveRows cat eqt data).1).getD k []).length
        = min 24 ((deriveRows cat eqt data).1.length - k * 24) := by
    intro k hk
    rw [paginate_getD _ _ _ hk]
    simp [List.length_take, List.length_drop]
  simp only [max_rows_per_page, paginate_length]
  refine ⟨k0, ⟨hk1, hk2, ?_⟩, ?_⟩
  · rw [hlen k0 hk1]
    exact hk3
  · intro y hy
    obtain ⟨hy1, hy2, hy3⟩ := hy
    rw [hlen y hy1] at hy3
    exact huniq y ⟨hy1, hy2, hy3⟩

/-- Catalog and record in the shape of the spec's pH example (integer
limit bounds keep the rational arithmetic kernel-reducible). -/
def phCat : Catalog := [("PH", (some (.num 1), some (.num 5)))]

/-- A pH measurement of 9.0 against limits 1-5: out of range, so row 1
carries alert cells. -/
def phRec : MRecord :=
  ⟨"2025-01-01", "Aux1", "pH-Universal (liq)", some (.num 9), none⟩

/-- Witness for C4: the alert recorded at (1, 3) for the pH example lands
on exactly one page. -/
theorem c4_witness :
    ∃! k : ℕ,
      k < (paginate max_rows_per_page (deriveRows phCat "POTABLE WATER" [phRec]).1).length ∧
      1 ≤ 1 - k * max_rows_per_page ∧
      1 - k * max_rows_per_page ≤
        ((paginate max_rows_per_page (deriveRows phCat "POTABLE WATER" [phRec]).1).getD k []).length :=
  c4_alert_remap phCat "POTABLE WATER" [phRec] 1 3 (by
    simp only [deriveRows, List.mergeSort_singleton]
    decide)

/-! ## Claims C5-C7: layout state machine -/

/-- A freshly opened content page of the "Main Engines" section. -/
def freshState : GenState := ⟨652, 0, 0, 1, "Main Engines", 1⟩

set_option maxRecDepth 4000 in
/-- C5 (counterexample): after 16 text lines the cursor sits at 396;
placing three grid charts then draws the bottom-row chart with bottom
edge -109 — far below the 85pt threshold — without opening any
continuation page, because `add_chart` checks only one chart height and
only at grid slot 0. -/
theorem c5_counterexample :
    (add_chart (some ())
        ((add_chart (some ())
            ((add_chart (some ()) (applyN add_text 16 freshState)).1)).1)).2
      = [⟨-109, 136⟩]
    ∧ (-109 : ℤ) < 85
    ∧ (add_chart (some ())
        ((add_chart (some ())
            ((add_chart (some ()) (applyN add_text 16 freshState)).1)).1)).1.pages
      = freshState.pages := by
  exact ⟨by decide, by decide, by decide⟩

/-- C5 (amended): `add_text` and `add_wide_chart` always check the 85pt
threshold and never draw below it, and `add_chart` does so at grid slot 0
(for the top-row chart it is about to draw); but the guard does not cover
the bottom grid row, and the paged-table draw of
`add_data_table_with_limits` has no such check at all. -/
theorem c5_guarded_ops (s : GenState) :
    (∀ d ∈ (add_text s).2, 85 ≤ d.y_bottom)
    ∧ (∀ d ∈ (add_wide_chart (some ()) s).2, 85 ≤ d.y_bottom)
    ∧ (s.grid_position = 0 → ∀ d ∈ (add_chart (some ()) s).2, 85 ≤ d.y_bottom) := by
  refine ⟨?_, ?_, ?_⟩
  · intro d hd
    simp only [add_text, List.mem_singleton] at hd
    subst hd
    split_ifs with h
    · simp [breakPage, start_content_page, showPage]
    · exact le_of_not_lt h
  · intro d hd
    simp only [add_wide_chart, List.mem_singleton] at hd
    subst hd
    split_ifs with h
    · simp [breakPage, start_content_page, showPage]
    · exact le_of_not_lt h
  · intro hgp d hd
    by_cases hbr : s.y_position - 245 < 85
    · simp only [add_chart, hgp, if_pos, if_true, hbr, breakPage, start_content_page,
        showPage, List.mem_singleton] at hd
      subst hd
      simp [breakPage, start_content_page, showPage]
    · simp only [add_chart, hgp, if_pos, if_true, hbr, if_false, List.mem_singleton] at hd
      subst hd
      simp only [hgp]
      norm_num
      omega

/-- Witness for C5: on a fresh page the slot-0 grid chart is drawn with
its bottom at 407 ≥ 85. -/
theorem c5_witness : (85 : ℤ) ≤ (DrawOp.mk 407 652).y_bottom :=
  (c5_guarded_ops freshState).2.2 rfl ⟨407, 652⟩ (by decide)

/-- C6 (counterexample): four grid placements from a fresh page (row top
652) leave the cursor at 132 = 652 - (2·245 + 2·15), not at
147 = 652 - (2·245 + 15) as "two chart-row-heights plus the gap" would
give: the code also subtracts a trailing 15pt gap after the row-set. -/
theorem c6_counterexample :
    (applyN (add_chart (some ())) 4 freshState).grid_position = 0
    ∧ (applyN (add_chart (some ())) 4 freshState).y_position = 132
    ∧ (applyN (add_chart (some ())) 4 freshState).pages = freshState.pages
    ∧ (132 : ℤ) ≠ 652 - (2 * 245 + 15) := by
  exact ⟨by decide, by decide, by decide, by decide⟩

/-- C6 (amended): from grid slot 0 at row top Y with one chart height of
room (so no page break occurs), four placements return the slot to 0 and
advance the cursor by exactly two chart heights plus two 15pt gaps (the
inter-row gap and the trailing gap): 2·245 + 2·15 = 520. -/
theorem c6_grid_wrap (s : GenState) (h0 : s.grid_position = 0)
    (hfit : 85 ≤ s.y_position - 245) :
    (applyN (add_chart (some ())) 4 s).grid_position = 0
    ∧ (applyN (add_chart (some ())) 4 s).y_position
        = s.y_position - (2 * 245 + 2 * 15)
    ∧ (applyN (add_chart (some ())) 4 s).pages = s.pages := by
  have hnb : ¬ (s.y_position - 245 < 85) := by omega
  simp only [applyN, add_chart, h0, hnb, if_false, if_pos, if_true]
  norm_num
  ring

/-- Witness for C6 at a fresh page. -/
theorem c6_witness :
    (applyN (add_chart (some ())) 4 freshState).grid_position = 0
    ∧ (applyN (add_chart (some ())) 4 freshState).y_position
        = freshState.y_position - (2 * 245 + 2 * 15)
    ∧ (applyN (add_chart (some ())) 4 freshState).pages = freshState.pages :=
  c6_grid_wrap freshState rfl (by decide)

/-- A state with three grid charts pending (slot 3) whose row top is 652. -/
def pendingGridState : GenState := ⟨300, 3, 652, 1, "Main Engines", 1⟩

/-- C7 (counterexample): flushing a 3-chart partial grid puts the cursor
at 102 = 652 - (2·260 + 15 + 15), while completing the row-set with a
fourth chart puts it at 132 = 652 - (2·245 + 15 + 15): `flush_grid` uses
a 260pt row height where `add_chart` uses 245, so the flush does *not*
advance "exactly as if the partial row had been completed". -/
theorem c7_counterexample :
    (flush_grid pendingGridState).y_position = 102
    ∧ ((add_chart (some ()) pendingGridState).1).y_position = 132
    ∧ (102 : ℤ) ≠ 132 := by
  exact ⟨by decide, by decide, by decide⟩

/-- C7 (amended): `add_wide_chart` always flushes the pending grid first
— after it (and after `flush_grid` itself) the slot is 0 — and the flush
advances the cursor to `grid_row_y - (260·R + 15·(R-1) + 15)` for
`R = (slot + 1) / 2` occupied rows; for a full two-row partial (slot 3)
this lands 30pt lower than completing the row-set with a fourth chart
would. -/
theorem c7_flush_semantics (s : GenState) (h : 0 < s.grid_position) :
    (flush_grid s).grid_position = 0
    ∧ ((add_wide_chart (some ()) s).1).grid_position = 0
    ∧ (flush_grid s).y_position
        = s.grid_row_y - (((s.grid_position + 1) / 2 : ℕ) : ℤ) * 260
            - ((((s.grid_position + 1) / 2 : ℕ) : ℤ) - 1) * 15 - 15
    ∧ (s.grid_position = 3 →
        (flush_grid s).y_position = ((add_chart (some ()) s).1).y_position - 30) := by
  refine ⟨?_, ?_, ?_, ?_⟩
  · simp [flush_grid, h]
  · simp only [add_wide_chart, flush_grid, h, if_true, if_pos]
    split_ifs <;> simp [breakPage, start_content_page, showPage]
  · simp [flush_grid, h]
  · intro h3
    have hne : ¬ (s.grid_position = 0) := by omega
    have h4 : (4 : ℕ) ≤ s.grid_position + 1 := by omega
    have h2 : ¬ s.grid_position < 2 := by omega
    simp only [flush_grid, add_chart, if_pos h, if_neg hne, if_pos h4, if_neg h2]
    rw [h3]
    norm_num
    omega

/-- Witness for C7 at the concrete 3-chart partial grid state. -/
theorem c7_witness :
    (flush_grid pendingGridState).grid_position = 0
    ∧ ((add_wide_chart (some ()) pendingGridState).1).grid_position = 0
    ∧ (flush_grid pendingGridState).y_position
        = pendingGridState.grid_row_y
            - (((pendingGridState.grid_position + 1) / 2 : ℕ) : ℤ) * 260
            - ((((pendingGridState.grid_position + 1) / 2 : ℕ) : ℤ) - 1) * 15 - 15
    ∧ (pendingGridState.grid_position = 3 →
        (flush_grid pendingGridState).y_position
          = ((add_chart (some ()) pendingGridState).1).y_position - 30) :=
  c7_flush_semantics pendingGridState (by decide)

/-! ## Claim C8 -/

theorem flush_grid_pages (s : GenState) : (flush_grid s).pages = s.pages := by
  unfold flush_grid
  split_ifs <;> rfl

theorem rowOfRecord_none_iff (cat : Catalog) (eqt : String) (rec : MRecord) :
    rowOfRecord cat eqt rec = none ↔ rec.value_numeric = none := by
  cases hv : rec.value_numeric <;> simp [rowOfRecord, hv]

theorem rowStatusAlert_strBad (s : String) (low high : Option PVal) :
    rowStatusAlert (.strBad s) low high = false := by
  cases low <;> cases high <;> rfl

theorem filterMap_rowOfRecord_length (cat : Catalog) (eqt : String) :
    ∀ l : List MRecord,
      (l.filterMap (rowOfRecord cat eqt)).length
        = (l.filter (fun r => r.value_numeric.isSome)).length := by
  intro l
  induction l with
  | nil => rfl
  | cons a rest ih =>
    cases hv : a.value_numeric with
    | none =>
      simp [List.filterMap_cons, List.filter_cons, rowOfRecord, hv, ih]
    | some v =>
      simp [List.filterMap_cons, List.filter_cons, rowOfRecord, hv, ih]

/-- A record whose `value_numeric` is `None`. -/
def nullRec : MRecord := ⟨"2025-01-02", "Aux1", "pH-Universal (liq)", none, none⟩

/-- C8 (counterexample): a single record with a null value produces *no*
table row at all — the loop `continue`s past it — rather than one row
rendered with a "-" placeholder as the claim asserts. -/
theorem c8_counterexample :
    (deriveRows phCat "POTABLE WATER" [nullRec]).1 = []
    ∧ (deriveRows phCat "POTABLE WATER" [nullRec]).1.length ≠ 1 := by
  constructor
  · simp only [deriveRows, List.mergeSort_singleton]
    decide
  · simp only [deriveRows, List.mergeSort_singleton]
    decide

/-- C8 (amended): in `add_data_table_with_limits`, a record is skipped
(producing no row) exactly when its value is null, so the rendered row
count equals the number of non-null records; a record whose non-null
value is unparsable renders as its raw string (not "-") with status "OK"
and contributes no alert; hence no null or unparsable value ever yields
an alert cell. -/
theorem c8_malformed_values :
    (∀ (cat : Catalog) (eqt : String) (rec : MRecord),
        rowOfRecord cat eqt rec = none ↔ rec.value_numeric = none)
    ∧ (∀ (cat : Catalog) (eqt : String) (data : List MRecord),
        (deriveRows cat eqt data).1.length
          = (data.filter (fun r => r.value_numeric.isSome)).length)
    ∧ (∀ (cat : Catalog) (eqt : String) (rec : MRecord) (str : String),
        rec.value_numeric = some (.strBad str) →
        ∃ cells, rowOfRecord cat eqt rec = some (cells, false)
          ∧ cells.getD 3 "" = str ∧ cells.getD 6 "" = "OK") := by
  refine ⟨rowOfRecord_none_iff, ?_, ?_⟩
  · intro cat eqt data
    simp only [deriveRows, List.length_map]
    rw [filterMap_rowOfRecord_length]
    exact ((List.mergeSort_perm data _).filter _).length_eq
  · intro cat eqt rec str hv
    simp only [rowOfRecord, hv, rowStatusAlert_strBad, Bool.false_eq_true, if_false,
      if_neg, ite_false]
    refine ⟨_, rfl, ?_, ?_⟩
    · simp [PVal.pyStr, List.getD]
    · rfl

/-- Witness for C8: an "N/A" value renders as "N/A" with status "OK" and
no alert. -/
theorem c8_witness :
    ∃ cells,
      rowOfRecord phCat "POTABLE WATER"
          ⟨"2025-01-03", "Aux1", "pH-Universal (liq)", some (.strBad "N/A"), none⟩
        = some (cells, false)
      ∧ cells.getD 3 "" = "N/A" ∧ cells.getD 6 "" = "OK" :=
  c8_malformed_values.2.2 phCat "POTABLE WATER"
    ⟨"2025-01-03", "Aux1", "pH-Universal (liq)", some (.strBad "N/A"), none⟩ "N/A" rfl

/-! ## Claim C9 -/

/-- A mid-section state: one grid chart pending, two pages into the
"Boiler Water" section, five pages emitted so far. -/
def tableStartState : GenState := ⟨400, 1, 500, 2, "Boiler Water", 5⟩

/-- C9 (counterexample): calling `add_data_table_with_limits` with a
non-empty data list whose every record is null-valued (so the derived row
list is empty) is *not* a no-op: the grid is flushed and one continuation
page is consumed before the `if not rows: return` is reached. -/
theorem c9_counterexample :
    (add_data_table_with_limits phCat [nullRec] "POTABLE WATER" none true
        tableStartState).1.pages = tableStartState.pages + 1
    ∧ (add_data_table_with_limits phCat [nullRec] "POTABLE WATER" none true
        tableStartState).1 ≠ tableStartState := by
  refine ⟨?_, ?_⟩ <;>
  · simp only [add_data_table_with_limits, deriveRows, List.mergeSort_singleton]
    decide

/-- C9 (amended): an empty data list and a null chart image are exact
no-ops (state unchanged, nothing drawn); but when the data list is
non-empty and every record is skipped, the function has already flushed
the grid and (with `new_page`) consumed one continuation page before the
empty derived row list makes it return without drawing a table. -/
theorem c9_empty_input (cat : Catalog) (eqt : String) (title : Option String)
    (np : Bool) (s : GenState) :
    add_data_table_with_limits cat [] eqt title np s = (s, [])
    ∧ add_chart none s = (s, [])
    ∧ (∀ data : List MRecord, data ≠ [] →
        (deriveRows cat eqt data).1 = [] →
        add_data_table_with_limits cat data eqt none true s
          = (breakPage (flush_grid s), [])
        ∧ (breakPage (flush_grid s)).pages = s.pages + 1) := by
  refine ⟨rfl, rfl, ?_⟩
  intro data hne hrows
  constructor
  · simp only [add_data_table_with_limits, if_neg hne, hrows]
    simp
  · simp [breakPage, start_content_page, showPage, flush_grid_pages]

/-- Witness for C9 at the concrete all-null data list. -/
theorem c9_witness :
    add_data_table_with_limits phCat [nullRec] "POTABLE WATER" none true tableStartState
        = (breakPage (flush_grid tableStartState), [])
    ∧ (breakPage (flush_grid tableStartState)).pages = tableStartState.pages + 1 :=
  (c9_empty_input phCat "POTABLE WATER" none true tableStartState).2.2 [nullRec]
    (by decide)
    (by simp only [deriveRows, List.mergeSort_singleton]; decide)

/-! ## Claim C10 -/

/-- C10 (counterexample): with value 0, lower bound 1 and an upper bound
on which `float` raises, the short-circuited `or` flags ALERT without
ever converting the upper bound — contradicting the claim's "both bounds
convert to floats" requirement for an alert. -/
theorem c10_counterexample :
    rowStatusAlert (.num 0) (some (.num 1)) (some (.strBad "x")) = true
    ∧ PVal.toFloat (.strBad "x") = none := ⟨rfl, rfl⟩

/-- C10 (amended): the per-row alert computation is a total function; it
flags ALERT iff both bounds are non-`None`, the value and the lower bound
convert to floats, and either value < lower (short-circuit: the upper
bound is then never converted) or value ≥ lower, the upper bound
converts, and value > upper; any other conversion failure leaves "OK".
Alert cells are recorded only for columns 3 (Value) and 6 (Status). -/
theorem c10_alert_iff :
    (∀ (value : PVal) (low high : Option PVal),
        rowStatusAlert value low high = true ↔
          ∃ lo hi v lf, low = some lo ∧ high = some hi ∧
            value.toFloat = some v ∧ lo.toFloat = some lf ∧
            (v < lf ∨ (¬ v < lf ∧ ∃ hf, hi.toFloat = some hf ∧ hf < v)))
    ∧ (∀ (cat : Catalog) (eqt : String) (data : List MRecord) (r c : ℕ),
        (r, c) ∈ (deriveRows cat eqt data).2 → c = 3 ∨ c = 6) := by
  constructor
  · intro value low high
    cases low with
    | none => simp [rowStatusAlert]
    | some lo =>
      cases high with
      | none => simp [rowStatusAlert]
      | some hi =>
        cases hv : value.toFloat with
        | none => simp [rowStatusAlert, hv]
        | some v =>
          cases hl : lo.toFloat with
          | none => simp [rowStatusAlert, hv, hl]
          | some lf =>
            by_cases hvl : v < lf
            · simp [rowStatusAlert, hv, hl, hvl]
            · cases hh : hi.toFloat with
              | none => simp [rowStatusAlert, hv, hl, hvl, hh]
              | some hf =>
                simp [rowStatusAlert, hv, hl, hvl, hh, gt_iff_lt]
                exact fun _ => not_lt.mp hvl
  · intro cat eqt data r c h
    exact (deriveRows_alert_bound cat eqt data r c h).2.2

/-- Witness for C10: the pH example's alert cell sits in column 3. -/
theorem c10_witness :
    (1, 3) ∈ (deriveRows phCat "POTABLE WATER" [phRec]).2
    ∧ ((3 : ℕ) = 3 ∨ (3 : ℕ) = 6) :=
  ⟨by simp only [deriveRows, List.mergeSort_singleton]; decide,
   c10_alert_iff.2 phCat "POTABLE WATER" [phRec] 1 3
     (by simp only [deriveRows, List.mergeSort_singleton]; decide)⟩
